import Mathlib

/-!
Verification of the token search-parameter query compiler
(`src/QueryBuilder/typeQueries/tokenQuery.ts` of fhir-works-on-aws-search-es).

The source is a single pure function `tokenQuery(compiled, value,
useKeywordSubFields, modifier?)` that builds an Elasticsearch query fragment.
We embed it shallowly:

* `CompiledSearchParam`, `TokenSearchValue` mirror the consumed input records.
* `Query` is an inductive covering exactly the JSON shapes the function
  produces: `multi_match` clauses, the `bool.must_not.exists` absence clause,
  and the `bool.must` AND-composite.
* The module-level JSON map `tokenDataTypesMap` is modelled as an explicit
  parameter of type `TokenDataTypesMap` (a lookup keyed by resource type and
  path, returning the list of data-type entries when present), since the
  function's behaviour is a function of that lookup only.
* The eight `has*Type` flags accumulated by the source's `forEach` loop are
  an explicit `TypeFlags` record folded over the list (`computeFlags`).
* The inline field-selection blocks for the `system` and `code` components
  are the defs `systemFields` / `codeFields` (with the source's `fields`
  accumulator as `systemCandidateFields` / `codeCandidateFields`), and the
  final composition (`return queries[0]` vs `bool.must` wrapping) is
  `composeQueries`.
* The JavaScript truthiness tests are made explicit: the guard on
  `modifier` is false for the empty string, and the guard on
  `explicitNoSystemProperty` is true only for a present `true` value.
-/

namespace FhirTokenQuery

/-- The compiled search parameter consumed by the compiler
(resource type and document field path). -/
structure CompiledSearchParam where
  resourceType : String
  path : String
deriving DecidableEq

/-- The parsed token search value: optional `system`, optional `code`, and the
optional `explicitNoSystemProperty` flag (`|code` syntax). -/
structure TokenSearchValue where
  system : Option String
  code : Option String
  explicitNoSystemProperty : Option Bool
deriving DecidableEq

/-- One entry of the type map: `{ code: <type tag> }`. -/
structure DataTypeEntry where
  code : String
deriving DecidableEq

/-- The module-level `tokenDataTypesMap` JSON, modelled as a lookup:
`resourceType → path → entries?`; `none` corresponds to
`!(resourceType in map && path in map[resourceType])`. -/
abbrev TokenDataTypesMap := String → String → Option (List DataTypeEntry)

/-- The error thrown for unsupported modifiers. -/
structure InvalidSearchParameterError where
  message : String
deriving DecidableEq

/-- The query fragments produced by the compiler:
`{ multi_match: { fields, query, lenient } }`,
`{ bool: { must_not: { exists: { field } } } }`, and
`{ bool: { must: [...] } }`. -/
inductive Query where
  | multiMatch (fields : List String) (query : String) (lenient : Bool)
  | boolMustNotExists (field : String)
  | boolMust (queries : List Query)

/-- `const FIELDS_WITHOUT_KEYWORD = ['id']` -/
def FIELDS_WITHOUT_KEYWORD : List String := ["id"]

/-- `const SUPPORTED_MODIFIERS: string[] = []` -/
def SUPPORTED_MODIFIERS : List String := []

/-- The eight boolean type flags of the source. -/
structure TypeFlags where
  hasIdentifierType : Bool
  hasCodeType : Bool
  hasCodeableConceptType : Bool
  hasIdType : Bool
  hasStringType : Bool
  hasBooleanType : Bool
  hasCodingType : Bool
  hasContactPointType : Bool
deriving DecidableEq

/-- All flags start out `false`. -/
def initialFlags : TypeFlags :=
  ⟨false, false, false, false, false, false, false, false⟩

/-- One step of the source's `dataTypes.forEach` accumulation. -/
def updateFlags (acc : TypeFlags) (dataType : DataTypeEntry) : TypeFlags :=
  ⟨acc.hasIdentifierType || dataType.code == "Identifier",
   acc.hasCodeType || dataType.code == "code",
   acc.hasCodeableConceptType || dataType.code == "CodeableConcept",
   acc.hasIdType || dataType.code == "id",
   acc.hasStringType || dataType.code == "string",
   acc.hasBooleanType || dataType.code == "boolean",
   acc.hasCodingType || dataType.code == "Coding",
   acc.hasContactPointType || dataType.code == "ContactPoint"⟩

/-- The `forEach` loop over `dataTypes` computing the eight flags. -/
def computeFlags (dataTypes : List DataTypeEntry) : TypeFlags :=
  dataTypes.foldl updateFlags initialFlags

/-- `useKeywordSubFields && !FIELDS_WITHOUT_KEYWORD.includes(compiled.path)` -/
def useKeywordSuffixFor (useKeywordSubFields : Bool) (path : String) : Bool :=
  useKeywordSubFields && !(FIELDS_WITHOUT_KEYWORD.contains path)

/-- `useKeywordSuffix ? '.keyword' : ''` -/
def keywordSuffixFor (useKeywordSubFields : Bool) (path : String) : String :=
  if useKeywordSuffixFor useKeywordSubFields path then ".keyword" else ""

/-- `compiled.resourceType in tokenDataTypesMap && compiled.path in ...` -/
def dataTypeExistsFor (m : TokenDataTypesMap) (compiled : CompiledSearchParam) : Bool :=
  (m compiled.resourceType compiled.path).isSome

/-- `dataTypeExists ? tokenDataTypesMap[resourceType][path] : []` -/
def dataTypesFor (m : TokenDataTypesMap) (compiled : CompiledSearchParam) : List DataTypeEntry :=
  (m compiled.resourceType compiled.path).getD []

/-- The `fields` accumulator of the `system !== undefined` branch, before the
fail-safe check (source lines 79–86). -/
def systemCandidateFields (path keywordSuffix : String) (flags : TypeFlags) : List String :=
  (if flags.hasIdentifierType || flags.hasCodingType then
    [path ++ ".system" ++ keywordSuffix] else []) ++
  (if flags.hasCodeableConceptType then
    [path ++ ".coding.system" ++ keywordSuffix] else [])

/-- The full field selection of the `system` branch, including the
`fields.length === 0` fail-safe and the `dataTypeExists === false` fallback
(source lines 77–97). -/
def systemFields (path keywordSuffix : String) (dataTypeExists : Bool)
    (flags : TypeFlags) : List String :=
  if dataTypeExists then
    if (systemCandidateFields path keywordSuffix flags).length = 0 then
      [path ++ ".system" ++ keywordSuffix, path ++ ".coding.system" ++ keywordSuffix]
    else
      systemCandidateFields path keywordSuffix flags
  else
    [path ++ ".system" ++ keywordSuffix, path ++ ".coding.system" ++ keywordSuffix]

/-- The `fields` accumulator of the `code !== undefined` branch, before the
fail-safe check (source lines 114–135).  When the keyword suffix is active
and the boolean flag is set, the bare path is pushed before
`path + keywordSuffix`. -/
def codeCandidateFields (path keywordSuffix : String) (useKeywordSuffix : Bool)
    (flags : TypeFlags) : List String :=
  (if flags.hasCodingType then [path ++ ".code" ++ keywordSuffix] else []) ++
  (if flags.hasCodeableConceptType then [path ++ ".coding.code" ++ keywordSuffix] else []) ++
  (if flags.hasIdentifierType || flags.hasContactPointType then
    [path ++ ".value" ++ keywordSuffix] else []) ++
  (if flags.hasCodeType || flags.hasStringType || flags.hasBooleanType || flags.hasIdType then
    (if useKeywordSuffix && flags.hasBooleanType then [path] else []) ++
      [path ++ keywordSuffix]
  else [])

/-- The full field selection of the `code` branch, including the
`fields.length === 0` fail-safe and the `dataTypeExists === false` fallback
with its extra bare path under `useKeywordSuffix` (source lines 112–163). -/
def codeFields (path keywordSuffix : String) (useKeywordSuffix dataTypeExists : Bool)
    (flags : TypeFlags) : List String :=
  if dataTypeExists then
    if (codeCandidateFields path keywordSuffix useKeywordSuffix flags).length = 0 then
      [path ++ ".code" ++ keywordSuffix, path ++ ".coding.code" ++ keywordSuffix,
       path ++ ".value" ++ keywordSuffix, path ++ keywordSuffix]
    else
      codeCandidateFields path keywordSuffix useKeywordSuffix flags
  else
    [path ++ ".code" ++ keywordSuffix, path ++ ".coding.code" ++ keywordSuffix,
     path ++ ".value" ++ keywordSuffix, path ++ keywordSuffix] ++
      (if useKeywordSuffix then [path] else [])

/-- The ordered `queries` list built by the three `if` blocks:
system clause, then code clause, then explicit-absence clause. -/
def tokenQueryClauses (m : TokenDataTypesMap) (compiled : CompiledSearchParam)
    (value : TokenSearchValue) (useKeywordSubFields : Bool) : List Query :=
  (match value.system with
   | some system =>
     [Query.multiMatch
       (systemFields compiled.path (keywordSuffixFor useKeywordSubFields compiled.path)
         (dataTypeExistsFor m compiled) (computeFlags (dataTypesFor m compiled)))
       system true]
   | none => []) ++
  (match value.code with
   | some code =>
     [Query.multiMatch
       (codeFields compiled.path (keywordSuffixFor useKeywordSubFields compiled.path)
         (useKeywordSuffixFor useKeywordSubFields compiled.path)
         (dataTypeExistsFor m compiled) (computeFlags (dataTypesFor m compiled)))
       code true]
   | none => []) ++
  (if value.explicitNoSystemProperty.getD false then
    [Query.boolMustNotExists (compiled.path ++ ".system")]
   else [])

/-- `if (queries.length === 1) return queries[0]; return { bool: { must: queries } }` -/
def composeQueries (queries : List Query) : Query :=
  match queries with
  | [q] => q
  | queries => Query.boolMust queries

/-- `if (modifier && !SUPPORTED_MODIFIERS.includes(modifier)) throw ...`.
JavaScript truthiness: an absent modifier and the empty string are both
falsy, so neither triggers the throw. -/
def modifierRejected (modifier : Option String) : Bool :=
  match modifier with
  | some md => md != "" && !(SUPPORTED_MODIFIERS.contains md)
  | none => false

/-- The exported `tokenQuery` function. -/
def tokenQuery (tokenDataTypesMap : TokenDataTypesMap) (compiled : CompiledSearchParam)
    (value : TokenSearchValue) (useKeywordSubFields : Bool) (modifier : Option String) :
    Except InvalidSearchParameterError Query :=
  if modifierRejected modifier then
    Except.error ⟨"Unsupported token search modifier: " ++ modifier.getD ""⟩
  else
    Except.ok (composeQueries (tokenQueryClauses tokenDataTypesMap compiled value useKeywordSubFields))

/-- A type map with no entries at all. -/
def emptyMap : TokenDataTypesMap := fun _ _ => none

/-- A type map with a single entry. -/
def mapOf (resourceType path : String) (entries : List DataTypeEntry) : TokenDataTypesMap :=
  fun rt p => if rt == resourceType && p == path then some entries else none

/-- The type map with the entry at the given compiled parameter replaced. -/
def overrideMap (m : TokenDataTypesMap) (compiled : CompiledSearchParam)
    (entries : List DataTypeEntry) : TokenDataTypesMap :=
  fun rt p =>
    if rt == compiled.resourceType && p == compiled.path then some entries else m rt p

mutual

/-- All field names occurring anywhere in a query fragment. -/
def Query.allFields : Query → List String
  | .multiMatch fields _ _ => fields
  | .boolMustNotExists field => [field]
  | .boolMust queries => Query.allFieldsList queries

/-- All field names occurring in a list of query fragments. -/
def Query.allFieldsList : List Query → List String
  | [] => []
  | q :: qs => q.allFields ++ Query.allFieldsList qs

end

mutual

/-- The `fields` lists of all `multi_match` clauses occurring anywhere in a
query fragment. -/
def Query.multiMatchFieldLists : Query → List (List String)
  | .multiMatch fields _ _ => [fields]
  | .boolMustNotExists _ => []
  | .boolMust queries => Query.multiMatchFieldListsOf queries

/-- The `fields` lists of all `multi_match` clauses in a list of fragments. -/
def Query.multiMatchFieldListsOf : List Query → List (List String)
  | [] => []
  | q :: qs => q.multiMatchFieldLists ++ Query.multiMatchFieldListsOf qs

end

/-- How many of the three clause producers apply to a value. -/
def clauseCount (value : TokenSearchValue) : Nat :=
  (if value.system.isSome then 1 else 0) + (if value.code.isSome then 1 else 0) +
    (if value.explicitNoSystemProperty.getD false then 1 else 0)

section Lemmas

theorem computeFlags_foldl (dataTypes : List DataTypeEntry) (acc : TypeFlags) :
    dataTypes.foldl updateFlags acc =
      ⟨acc.hasIdentifierType || dataTypes.any (fun d => d.code == "Identifier"),
       acc.hasCodeType || dataTypes.any (fun d => d.code == "code"),
       acc.hasCodeableConceptType || dataTypes.any (fun d => d.code == "CodeableConcept"),
       acc.hasIdType || dataTypes.any (fun d => d.code == "id"),
       acc.hasStringType || dataTypes.any (fun d => d.code == "string"),
       acc.hasBooleanType || dataTypes.any (fun d => d.code == "boolean"),
       acc.hasCodingType || dataTypes.any (fun d => d.code == "Coding"),
       acc.hasContactPointType || dataTypes.any (fun d => d.code == "ContactPoint")⟩ := by
  induction dataTypes generalizing acc with
  | nil => simp
  | cons d ds ih =>
    simp only [List.foldl_cons, ih, updateFlags, List.any_cons, Bool.or_assoc]

/-- Each flag is set exactly when the corresponding tag occurs in the list. -/
theorem computeFlags_eq (dataTypes : List DataTypeEntry) :
    computeFlags dataTypes =
      ⟨dataTypes.any (fun d => d.code == "Identifier"),
       dataTypes.any (fun d => d.code == "code"),
       dataTypes.any (fun d => d.code == "CodeableConcept"),
       dataTypes.any (fun d => d.code == "id"),
       dataTypes.any (fun d => d.code == "string"),
       dataTypes.any (fun d => d.code == "boolean"),
       dataTypes.any (fun d => d.code == "Coding"),
       dataTypes.any (fun d => d.code == "ContactPoint")⟩ := by
  simp [computeFlags, computeFlags_foldl, initialFlags]

theorem systemFields_unknown (path keywordSuffix : String) (flags : TypeFlags) :
    systemFields path keywordSuffix false flags =
      [path ++ ".system" ++ keywordSuffix, path ++ ".coding.system" ++ keywordSuffix] := rfl

theorem codeFields_unknown (path keywordSuffix : String) (useKeywordSuffix : Bool)
    (flags : TypeFlags) :
    codeFields path keywordSuffix useKeywordSuffix false flags =
      [path ++ ".code" ++ keywordSuffix, path ++ ".coding.code" ++ keywordSuffix,
       path ++ ".value" ++ keywordSuffix, path ++ keywordSuffix] ++
        (if useKeywordSuffix then [path] else []) := rfl

theorem length_tokenQueryClauses (m : TokenDataTypesMap) (compiled : CompiledSearchParam)
    (value : TokenSearchValue) (ukf : Bool) :
    (tokenQueryClauses m compiled value ukf).length = clauseCount value := by
  obtain ⟨sys, cod, ensp⟩ := value
  unfold tokenQueryClauses clauseCount
  cases sys <;> cases cod <;> cases hE : ensp.getD false <;> simp [hE]

theorem mem_tokenQueryClauses {m : TokenDataTypesMap} {compiled : CompiledSearchParam}
    {value : TokenSearchValue} {ukf : Bool} {c : Query}
    (hc : c ∈ tokenQueryClauses m compiled value ukf) :
    (∃ s, value.system = some s ∧
      c = Query.multiMatch
        (systemFields compiled.path (keywordSuffixFor ukf compiled.path)
          (dataTypeExistsFor m compiled) (computeFlags (dataTypesFor m compiled))) s true) ∨
    (∃ co, value.code = some co ∧
      c = Query.multiMatch
        (codeFields compiled.path (keywordSuffixFor ukf compiled.path)
          (useKeywordSuffixFor ukf compiled.path)
          (dataTypeExistsFor m compiled) (computeFlags (dataTypesFor m compiled))) co true) ∨
    c = Query.boolMustNotExists (compiled.path ++ ".system") := by
  obtain ⟨sys, cod, ensp⟩ := value
  unfold tokenQueryClauses at hc
  cases sys <;> cases cod <;> cases hE : ensp.getD false <;>
    (simp only [hE] at hc; simp_all; try tauto)

theorem tokenQuery_ok {m : TokenDataTypesMap} {compiled : CompiledSearchParam}
    {value : TokenSearchValue} {ukf : Bool} {modifier : Option String} {q : Query}
    (h : tokenQuery m compiled value ukf modifier = Except.ok q) :
    tokenQueryClauses m compiled value ukf = [q] ∨
      q = Query.boolMust (tokenQueryClauses m compiled value ukf) := by
  unfold tokenQuery at h
  split at h
  · cases h
  · rcases hcl : tokenQueryClauses m compiled value ukf with _ | ⟨c, _ | ⟨c2, cs⟩⟩ <;>
      rw [hcl] at h <;> simp [composeQueries] at h <;> simp [h]

theorem allFields_boolMust (qs : List Query) :
    (Query.boolMust qs).allFields = Query.allFieldsList qs := by
  simp [Query.allFields]

theorem multiMatchFieldLists_boolMust (qs : List Query) :
    (Query.boolMust qs).multiMatchFieldLists = Query.multiMatchFieldListsOf qs := by
  simp [Query.multiMatchFieldLists]

theorem mem_allFieldsList {f : String} {qs : List Query} :
    f ∈ Query.allFieldsList qs ↔ ∃ c ∈ qs, f ∈ c.allFields := by
  induction qs with
  | nil => simp [Query.allFieldsList]
  | cons q qs ih => simp [Query.allFieldsList, ih]

theorem mem_multiMatchFieldListsOf {fl : List String} {qs : List Query} :
    fl ∈ Query.multiMatchFieldListsOf qs ↔ ∃ c ∈ qs, fl ∈ c.multiMatchFieldLists := by
  induction qs with
  | nil => simp [Query.multiMatchFieldListsOf]
  | cons q qs ih => simp [Query.multiMatchFieldListsOf, ih]

/-- Every field occurring in a successful result occurs in one of the
produced clauses. -/
theorem mem_allFields_of_ok {m : TokenDataTypesMap} {compiled : CompiledSearchParam}
    {value : TokenSearchValue} {ukf : Bool} {modifier : Option String} {q : Query}
    (h : tokenQuery m compiled value ukf modifier = Except.ok q)
    {f : String} (hf : f ∈ q.allFields) :
    ∃ c ∈ tokenQueryClauses m compiled value ukf, f ∈ c.allFields := by
  rcases tokenQuery_ok h with hcl | rfl
  · exact ⟨q, by simp [hcl], hf⟩
  · rw [allFields_boolMust] at hf
    exact mem_allFieldsList.mp hf

/-- Every `multi_match` fields list occurring in a successful result occurs in
one of the produced clauses. -/
theorem mem_multiMatchFieldLists_of_ok {m : TokenDataTypesMap} {compiled : CompiledSearchParam}
    {value : TokenSearchValue} {ukf : Bool} {modifier : Option String} {q : Query}
    (h : tokenQuery m compiled value ukf modifier = Except.ok q)
    {fl : List String} (hfl : fl ∈ q.multiMatchFieldLists) :
    ∃ c ∈ tokenQueryClauses m compiled value ukf, fl ∈ c.multiMatchFieldLists := by
  rcases tokenQuery_ok h with hcl | rfl
  · exact ⟨q, by simp [hcl], hfl⟩
  · rw [multiMatchFieldLists_boolMust] at hfl
    exact mem_multiMatchFieldListsOf.mp hfl

end Lemmas

section Claims

/-- C1 (counterexample): with `useKeywordSubFields = true` and a non-excluded
path, a type-map entry with no recognized tags selects only the four
canonical code fields, while the unknown-type case additionally selects the
bare path — so selection does NOT fall back identically. -/
theorem fallbackEquivalence_counterexample :
    tokenQuery (mapOf "Patient" "x" []) ⟨"Patient", "x"⟩ ⟨none, some "c", none⟩ true none =
      Except.ok (Query.multiMatch
        ["x.code.keyword", "x.coding.code.keyword", "x.value.keyword", "x.keyword"] "c" true) ∧
    tokenQuery emptyMap ⟨"Patient", "x"⟩ ⟨none, some "c", none⟩ true none =
      Except.ok (Query.multiMatch
        ["x.code.keyword", "x.coding.code.keyword", "x.value.keyword", "x.keyword", "x"] "c" true) ∧
    (["x.code.keyword", "x.coding.code.keyword", "x.value.keyword", "x.keyword"] : List String) ≠
      ["x.code.keyword", "x.coding.code.keyword", "x.value.keyword", "x.keyword", "x"] :=
  ⟨rfl, rfl, by decide⟩

/-- C1 (amended): when `dataTypeExists` is true but no recognized type flag is
set, the system field list is identical to the unknown-type case, and the
code field list of the unknown-type case equals the known-type fallback plus
the bare path exactly when the keyword suffix is active. -/
theorem fallbackEquivalence_amended (path keywordSuffix : String) (useKeywordSuffix : Bool)
    (flags : TypeFlags) (hflags : flags = initialFlags) :
    systemFields path keywordSuffix true flags =
      systemFields path keywordSuffix false flags ∧
    codeFields path keywordSuffix useKeywordSuffix false flags =
      codeFields path keywordSuffix useKeywordSuffix true flags ++
        (if useKeywordSuffix then [path] else []) := by
  subst hflags
  exact ⟨rfl, by cases useKeywordSuffix <;> rfl⟩

theorem fallbackEquivalence_amended_witness :
    systemFields "x" ".keyword" true initialFlags =
      systemFields "x" ".keyword" false initialFlags ∧
    codeFields "x" ".keyword" true false initialFlags =
      codeFields "x" ".keyword" true true initialFlags ++ ["x"] :=
  fallbackEquivalence_amended "x" ".keyword" true initialFlags rfl

/-- C2 (counterexample): for the excluded path `id` with
`useKeywordSubFields = true` and no type-map entry, the code `multi_match`
fields are the four canonical fields only — the bare path is NOT added even
though `useKeywordSubFields` is true (the source guards the push with
`useKeywordSuffix`, which is false for `id`). -/
theorem unknownTypeFields_counterexample :
    tokenQuery emptyMap ⟨"Patient", "id"⟩ ⟨none, some "c", none⟩ true none =
      Except.ok (Query.multiMatch ["id.code", "id.coding.code", "id.value", "id"] "c" true) ∧
    (["id.code", "id.coding.code", "id.value", "id"] : List String) ≠
      ["id.code", "id.coding.code", "id.value", "id", "id"] :=
  ⟨rfl, by decide⟩

/-- C2 (amended): when the type map has no entry for the compiled parameter,
the clause list consists of: if `system` is defined a `multi_match` over
exactly `[path.system<suffix>, path.coding.system<suffix>]`, if `code` is
defined a `multi_match` over exactly the four canonical fields plus the bare
path when the keyword suffix is active (`useKeywordSubFields` true AND the
path not in the exclusion list), and the absence clause when applicable. -/
theorem unknownTypeFields_amended (m : TokenDataTypesMap) (compiled : CompiledSearchParam)
    (value : TokenSearchValue) (ukf : Bool)
    (hdt : m compiled.resourceType compiled.path = none) :
    tokenQueryClauses m compiled value ukf =
      (match value.system with
       | some s => [Query.multiMatch
           [compiled.path ++ ".system" ++ keywordSuffixFor ukf compiled.path,
            compiled.path ++ ".coding.system" ++ keywordSuffixFor ukf compiled.path] s true]
       | none => []) ++
      (match value.code with
       | some co => [Query.multiMatch
           ([compiled.path ++ ".code" ++ keywordSuffixFor ukf compiled.path,
             compiled.path ++ ".coding.code" ++ keywordSuffixFor ukf compiled.path,
             compiled.path ++ ".value" ++ keywordSuffixFor ukf compiled.path,
             compiled.path ++ keywordSuffixFor ukf compiled.path] ++
            (if useKeywordSuffixFor ukf compiled.path then [compiled.path] else [])) co true]
       | none => []) ++
      (if value.explicitNoSystemProperty.getD false then
        [Query.boolMustNotExists (compiled.path ++ ".system")] else []) := by
  unfold tokenQueryClauses
  rw [show dataTypeExistsFor m compiled = false by simp [dataTypeExistsFor, hdt],
    show dataTypesFor m compiled = [] by simp [dataTypesFor, hdt],
    show computeFlags [] = initialFlags from rfl, systemFields_unknown, codeFields_unknown]

theorem unknownTypeFields_amended_witness :
    tokenQueryClauses emptyMap ⟨"Patient", "identifier"⟩ ⟨some "s", some "c", none⟩ true =
      [Query.multiMatch ["identifier.system.keyword", "identifier.coding.system.keyword"] "s" true,
       Query.multiMatch ["identifier.code.keyword", "identifier.coding.code.keyword",
         "identifier.value.keyword", "identifier.keyword", "identifier"] "c" true] :=
  unknownTypeFields_amended emptyMap ⟨"Patient", "identifier"⟩ ⟨some "s", some "c", none⟩ true rfl

/-- C3 (counterexample): the empty string is a set modifier that is not in the
(empty) supported set, yet the compiler succeeds on it — the source's
truthiness guard treats `''` like an absent modifier. -/
theorem modifierValidation_counterexample :
    SUPPORTED_MODIFIERS.contains "" = false ∧
    tokenQuery emptyMap ⟨"Patient", "identifier"⟩ ⟨none, none, none⟩ false (some "") =
      Except.ok (Query.boolMust []) :=
  ⟨rfl, rfl⟩

/-- C3 (amended): the compiler fails, with message
`Unsupported token search modifier: <modifier>`, exactly when the modifier is
set to a NON-EMPTY string outside the supported set; an unset or empty
modifier never fails. -/
theorem modifierValidation_amended (m : TokenDataTypesMap) (compiled : CompiledSearchParam)
    (value : TokenSearchValue) (ukf : Bool) (modifier : Option String) :
    ((∃ e, tokenQuery m compiled value ukf modifier = Except.error e) ↔
      ∃ md, modifier = some md ∧ md ≠ "" ∧ SUPPORTED_MODIFIERS.contains md = false) ∧
    (∀ md, modifier = some md → md ≠ "" → SUPPORTED_MODIFIERS.contains md = false →
      tokenQuery m compiled value ukf modifier =
        Except.error ⟨"Unsupported token search modifier: " ++ md⟩) := by
  cases modifier with
  | none =>
    refine ⟨⟨?_, ?_⟩, ?_⟩
    · intro ⟨e, he⟩
      simp [tokenQuery, modifierRejected] at he
    · intro ⟨md, hmd, _⟩
      cases hmd
    · intro md hmd
      cases hmd
  | some md =>
    by_cases hne : md = ""
    · subst hne
      refine ⟨⟨?_, ?_⟩, ?_⟩
      · intro ⟨e, he⟩
        simp [tokenQuery, modifierRejected] at he
      · intro ⟨md2, hmd2, hne2, _⟩
        cases hmd2
        exact absurd rfl hne2
      · intro md2 hmd2 hne2 _
        cases hmd2
        exact absurd rfl hne2
    · have hrej : modifierRejected (some md) = true := by
        simp [modifierRejected, SUPPORTED_MODIFIERS, hne]
      refine ⟨⟨?_, ?_⟩, ?_⟩
      · intro _
        exact ⟨md, rfl, hne, rfl⟩
      · intro _
        exact ⟨⟨"Unsupported token search modifier: " ++ md⟩, by simp [tokenQuery, hrej]⟩
      · intro md2 hmd2 _ _
        cases hmd2
        simp [tokenQuery, hrej]

theorem modifierValidation_amended_witness :
    tokenQuery emptyMap ⟨"Patient", "identifier"⟩ ⟨none, none, none⟩ false (some "exact") =
      Except.error ⟨"Unsupported token search modifier: exact"⟩ :=
  (modifierValidation_amended emptyMap ⟨"Patient", "identifier"⟩ ⟨none, none, none⟩ false
    (some "exact")).2 "exact" rfl (by decide) rfl

/-- C4 (counterexample): for the excluded path `id` with a boolean type tag
and `useKeywordSubFields = true`, the code `multi_match` field list is
`["id"]` only — it does not contain `id.keyword`. -/
theorem booleanKeyword_counterexample :
    tokenQuery (mapOf "Patient" "id" [⟨"boolean"⟩]) ⟨"Patient", "id"⟩
      ⟨none, some "true", none⟩ true none =
      Except.ok (Query.multiMatch ["id"] "true" true) ∧
    ¬ ("id.keyword" ∈ (["id"] : List String)) :=
  ⟨rfl, by decide⟩

/-- C4 (amended): when `code` is defined, `useKeywordSubFields` is true, the
type-map entry exists and contains the boolean tag, AND the path is not in
the no-keyword exclusion list, the code field list contains both the bare
path and `path.keyword`, and the corresponding `multi_match` clause is among
the produced clauses. -/
theorem booleanKeyword_amended (m : TokenDataTypesMap) (compiled : CompiledSearchParam)
    (value : TokenSearchValue) (c : String) (dts : List DataTypeEntry)
    (hc : value.code = some c)
    (hm : m compiled.resourceType compiled.path = some dts)
    (hb : dts.any (fun d => d.code == "boolean") = true)
    (hnk : FIELDS_WITHOUT_KEYWORD.contains compiled.path = false) :
    compiled.path ∈ codeFields compiled.path ".keyword" true true (computeFlags dts) ∧
    compiled.path ++ ".keyword" ∈
      codeFields compiled.path ".keyword" true true (computeFlags dts) ∧
    Query.multiMatch (codeFields compiled.path ".keyword" true true (computeFlags dts)) c true
      ∈ tokenQueryClauses m compiled value true := by
  have hBool : (computeFlags dts).hasBooleanType = true := by
    rw [computeFlags_eq]
    exact hb
  have hmem1 : compiled.path ∈
      codeCandidateFields compiled.path ".keyword" true (computeFlags dts) := by
    unfold codeCandidateFields
    simp [hBool]
  have hmem2 : compiled.path ++ ".keyword" ∈
      codeCandidateFields compiled.path ".keyword" true (computeFlags dts) := by
    unfold codeCandidateFields
    simp [hBool]
  have hne : ¬ ((codeCandidateFields compiled.path ".keyword" true (computeFlags dts)).length = 0) := by
    intro h0
    rw [List.length_eq_zero] at h0
    rw [h0] at hmem1
    cases hmem1
  have hcf : codeFields compiled.path ".keyword" true true (computeFlags dts) =
      codeCandidateFields compiled.path ".keyword" true (computeFlags dts) := by
    simp [codeFields, hne]
  refine ⟨hcf ▸ hmem1, hcf ▸ hmem2, ?_⟩
  have hdte : dataTypeExistsFor m compiled = true := by simp [dataTypeExistsFor, hm]
  have hdts : dataTypesFor m compiled = dts := by simp [dataTypesFor, hm]
  have hnk2 : compiled.path ∉ FIELDS_WITHOUT_KEYWORD := by simpa using hnk
  have huks : useKeywordSuffixFor true compiled.path = true := by
    simp [useKeywordSuffixFor, hnk2]
  have hsfx : keywordSuffixFor true compiled.path = ".keyword" := by
    simp [keywordSuffixFor, useKeywordSuffixFor, hnk2]
  unfold tokenQueryClauses
  rw [hc, hdte, hdts, huks, hsfx]
  refine List.mem_append.mpr (Or.inl (List.mem_append.mpr (Or.inr ?_)))
  simp

theorem booleanKeyword_amended_witness :
    "active" ∈ codeFields "active" ".keyword" true true (computeFlags [⟨"boolean"⟩]) ∧
    "active.keyword" ∈ codeFields "active" ".keyword" true true (computeFlags [⟨"boolean"⟩]) :=
  ⟨(booleanKeyword_amended (mapOf "Patient" "active" [⟨"boolean"⟩]) ⟨"Patient", "active"⟩
      ⟨none, some "true", none⟩ "true" [⟨"boolean"⟩] rfl rfl rfl rfl).1,
   (booleanKeyword_amended (mapOf "Patient" "active" [⟨"boolean"⟩]) ⟨"Patient", "active"⟩
      ⟨none, some "true", none⟩ "true" [⟨"boolean"⟩] rfl rfl rfl rfl).2.1⟩

/-- For the excluded path `id` the suffix is always empty. -/
theorem keywordSuffixFor_id (ukf : Bool) : keywordSuffixFor ukf "id" = "" := by
  cases ukf <;> rfl

/-- For the excluded path `id` the keyword suffix is never active. -/
theorem useKeywordSuffixFor_id (ukf : Bool) : useKeywordSuffixFor ukf "id" = false := by
  cases ukf <;> rfl

/-- Whatever the type flags, the system selector for path `id` with empty
suffix only ever picks the two suffix-free system fields. -/
theorem systemFields_id_subset :
    ∀ (dte a b c d e f g h : Bool),
      ∀ x ∈ systemFields "id" "" dte ⟨a, b, c, d, e, f, g, h⟩,
        x ∈ ["id.system", "id.coding.system"] := by decide

/-- Whatever the type flags, the code selector for path `id` with empty
suffix and inactive keyword suffix only ever picks suffix-free fields. -/
theorem codeFields_id_subset :
    ∀ (dte a b c d e f g h : Bool),
      ∀ x ∈ codeFields "id" "" false dte ⟨a, b, c, d, e, f, g, h⟩,
        x ∈ ["id.code", "id.coding.code", "id.value", "id"] := by decide

/-- C5: for the compiled path `id`, no field name anywhere in a successful
result carries the `.keyword` suffix (as character sequences), whatever the
map, value, flag and modifier. -/
theorem idPath_no_keyword (m : TokenDataTypesMap) (rt : String) (value : TokenSearchValue)
    (ukf : Bool) (modifier : Option String) (q : Query)
    (h : tokenQuery m ⟨rt, "id"⟩ value ukf modifier = Except.ok q) :
    ∀ f ∈ q.allFields, ¬ (".keyword".toList.IsSuffix f.toList) := by
  intro f hf
  obtain ⟨c, hcmem, hfc⟩ := mem_allFields_of_ok h hf
  rcases mem_tokenQueryClauses hcmem with ⟨s, _, rfl⟩ | ⟨co, _, rfl⟩ | rfl
  · simp only [Query.allFields] at hfc
    rw [keywordSuffixFor_id] at hfc
    generalize dataTypeExistsFor m ⟨rt, "id"⟩ = dte at hfc
    generalize computeFlags (dataTypesFor m ⟨rt, "id"⟩) = flags at hfc
    obtain ⟨a1, a2, a3, a4, a5, a6, a7, a8⟩ := flags
    have hsub := systemFields_id_subset dte a1 a2 a3 a4 a5 a6 a7 a8 f hfc
    simp only [List.mem_cons, List.not_mem_nil, or_false] at hsub
    rcases hsub with rfl | rfl <;> decide
  · simp only [Query.allFields] at hfc
    rw [keywordSuffixFor_id, useKeywordSuffixFor_id] at hfc
    generalize dataTypeExistsFor m ⟨rt, "id"⟩ = dte at hfc
    generalize computeFlags (dataTypesFor m ⟨rt, "id"⟩) = flags at hfc
    obtain ⟨a1, a2, a3, a4, a5, a6, a7, a8⟩ := flags
    have hsub := codeFields_id_subset dte a1 a2 a3 a4 a5 a6 a7 a8 f hfc
    simp only [List.mem_cons, List.not_mem_nil, or_false] at hsub
    rcases hsub with rfl | rfl | rfl | rfl <;> decide
  · simp only [Query.allFields, List.mem_cons, List.not_mem_nil, or_false] at hfc
    subst hfc
    decide

theorem idPath_no_keyword_witness :
    ¬ (".keyword".toList.IsSuffix "id.system".toList) :=
  idPath_no_keyword emptyMap "Patient" ⟨some "s", some "c", some true⟩ true none
    (Query.boolMust
      [Query.multiMatch ["id.system", "id.coding.system"] "s" true,
       Query.multiMatch ["id.code", "id.coding.code", "id.value", "id"] "c" true,
       Query.boolMustNotExists "id.system"]) rfl "id.system"
    (by simp [Query.allFields, Query.allFieldsList])

/-- C6: when at least two clause producers apply (and the modifier passes),
the result is the `bool.must` composite of the produced clauses, in the
fixed order system clause, code clause, absence clause. -/
theorem andComposite_order (m : TokenDataTypesMap) (compiled : CompiledSearchParam)
    (value : TokenSearchValue) (ukf : Bool) (modifier : Option String)
    (hmod : modifierRejected modifier = false)
    (h2 : 2 ≤ clauseCount value) :
    tokenQuery m compiled value ukf modifier =
      Except.ok (Query.boolMust (tokenQueryClauses m compiled value ukf)) ∧
    tokenQueryClauses m compiled value ukf =
      (match value.system with
       | some s => [Query.multiMatch (systemFields compiled.path
           (keywordSuffixFor ukf compiled.path) (dataTypeExistsFor m compiled)
           (computeFlags (dataTypesFor m compiled))) s true]
       | none => []) ++
      (match value.code with
       | some co => [Query.multiMatch (codeFields compiled.path
           (keywordSuffixFor ukf compiled.path) (useKeywordSuffixFor ukf compiled.path)
           (dataTypeExistsFor m compiled) (computeFlags (dataTypesFor m compiled))) co true]
       | none => []) ++
      (if value.explicitNoSystemProperty.getD false then
        [Query.boolMustNotExists (compiled.path ++ ".system")] else []) := by
  refine ⟨?_, rfl⟩
  have hlen : (tokenQueryClauses m compiled value ukf).length = clauseCount value :=
    length_tokenQueryClauses m compiled value ukf
  rcases hcl : tokenQueryClauses m compiled value ukf with _ | ⟨c1, _ | ⟨c2, cs⟩⟩
  · rw [hcl] at hlen
    simp at hlen
    omega
  · rw [hcl] at hlen
    simp at hlen
    omega
  · simp [tokenQuery, hmod, hcl, composeQueries]

theorem andComposite_order_witness :
    tokenQuery emptyMap ⟨"Patient", "x"⟩ ⟨some "s", some "c", none⟩ false none =
      Except.ok (Query.boolMust
        [Query.multiMatch ["x.system", "x.coding.system"] "s" true,
         Query.multiMatch ["x.code", "x.coding.code", "x.value", "x"] "c" true]) :=
  (andComposite_order emptyMap ⟨"Patient", "x"⟩ ⟨some "s", some "c", none⟩ false none rfl
    (by decide)).1

/-- C7: when exactly one clause producer applies (and the modifier passes),
the compiler returns that single clause directly, and it is not a
`bool.must` composite. -/
theorem singleClause_unwrapped (m : TokenDataTypesMap) (compiled : CompiledSearchParam)
    (value : TokenSearchValue) (ukf : Bool) (modifier : Option String)
    (hmod : modifierRejected modifier = false)
    (h1 : clauseCount value = 1) :
    ∃ c, tokenQueryClauses m compiled value ukf = [c] ∧
      tokenQuery m compiled value ukf modifier = Except.ok c ∧
      ∀ qs, c ≠ Query.boolMust qs := by
  have hlen : (tokenQueryClauses m compiled value ukf).length = clauseCount value :=
    length_tokenQueryClauses m compiled value ukf
  rw [h1] at hlen
  rcases hcl : tokenQueryClauses m compiled value ukf with _ | ⟨c, _ | ⟨c2, cs⟩⟩
  · rw [hcl] at hlen
    simp at hlen
  · refine ⟨c, rfl, ?_, ?_⟩
    · simp [tokenQuery, hmod, hcl, composeQueries]
    · have hcmem : c ∈ tokenQueryClauses m compiled value ukf := by
        rw [hcl]
        exact List.mem_singleton_self c
      rcases mem_tokenQueryClauses hcmem with ⟨s, _, rfl⟩ | ⟨co, _, rfl⟩ | rfl <;>
        exact fun qs hq => Query.noConfusion hq
  · rw [hcl] at hlen
    simp at hlen

theorem singleClause_unwrapped_witness :
    ∃ c, tokenQueryClauses emptyMap ⟨"Patient", "x"⟩ ⟨none, some "c", none⟩ false = [c] ∧
      tokenQuery emptyMap ⟨"Patient", "x"⟩ ⟨none, some "c", none⟩ false none = Except.ok c ∧
      ∀ qs, c ≠ Query.boolMust qs :=
  singleClause_unwrapped emptyMap ⟨"Patient", "x"⟩ ⟨none, some "c", none⟩ false none rfl rfl

/-- C8: when `system` and `code` are both undefined and
`explicitNoSystemProperty` is falsy (and the modifier passes), the result is
the empty AND-composite. -/
theorem emptyComposite (m : TokenDataTypesMap) (compiled : CompiledSearchParam)
    (value : TokenSearchValue) (ukf : Bool) (modifier : Option String)
    (hs : value.system = none) (hc : value.code = none)
    (he : value.explicitNoSystemProperty.getD false = false)
    (hmod : modifierRejected modifier = false) :
    tokenQuery m compiled value ukf modifier = Except.ok (Query.boolMust []) := by
  have hcl : tokenQueryClauses m compiled value ukf = [] := by
    unfold tokenQueryClauses
    rw [hs, hc, he]
    rfl
  simp [tokenQuery, hmod, hcl, composeQueries]

theorem emptyComposite_witness :
    tokenQuery emptyMap ⟨"Patient", "x"⟩ ⟨none, none, none⟩ true none =
      Except.ok (Query.boolMust []) :=
  emptyComposite emptyMap ⟨"Patient", "x"⟩ ⟨none, none, none⟩ true none rfl rfl rfl rfl

/-- C9: with a type-map entry present, the output only depends on the SET of
tag codes in the entry: two entries whose tag codes occur in each other
(permutations, duplications) give identical query fragments. -/
theorem typeListSet_invariance (m : TokenDataTypesMap) (compiled : CompiledSearchParam)
    (value : TokenSearchValue) (ukf : Bool) (modifier : Option String)
    (l1 l2 : List DataTypeEntry)
    (hset : ∀ t : String, l1.any (fun d => d.code == t) = l2.any (fun d => d.code == t)) :
    tokenQuery (overrideMap m compiled l1) compiled value ukf modifier =
      tokenQuery (overrideMap m compiled l2) compiled value ukf modifier := by
  have hflags : computeFlags l1 = computeFlags l2 := by
    rw [computeFlags_eq, computeFlags_eq, hset "Identifier", hset "code",
      hset "CodeableConcept", hset "id", hset "string", hset "boolean",
      hset "Coding", hset "ContactPoint"]
  have hlook : ∀ l, overrideMap m compiled l compiled.resourceType compiled.path = some l := by
    intro l
    simp [overrideMap]
  have hdte1 : dataTypeExistsFor (overrideMap m compiled l1) compiled = true := by
    simp [dataTypeExistsFor, hlook]
  have hdte2 : dataTypeExistsFor (overrideMap m compiled l2) compiled = true := by
    simp [dataTypeExistsFor, hlook]
  have hdts1 : dataTypesFor (overrideMap m compiled l1) compiled = l1 := by
    simp [dataTypesFor, hlook]
  have hdts2 : dataTypesFor (overrideMap m compiled l2) compiled = l2 := by
    simp [dataTypesFor, hlook]
  unfold tokenQuery
  split
  · rfl
  · unfold tokenQueryClauses
    rw [hdte1, hdte2, hdts1, hdts2, hflags]

theorem typeListSet_invariance_witness :
    tokenQuery (overrideMap emptyMap ⟨"Patient", "code"⟩ [⟨"Coding"⟩, ⟨"Identifier"⟩])
        ⟨"Patient", "code"⟩ ⟨some "s", some "c", none⟩ true none =
      tokenQuery (overrideMap emptyMap ⟨"Patient", "code"⟩
          [⟨"Identifier"⟩, ⟨"Coding"⟩, ⟨"Identifier"⟩])
        ⟨"Patient", "code"⟩ ⟨some "s", some "c", none⟩ true none :=
  typeListSet_invariance emptyMap ⟨"Patient", "code"⟩ ⟨some "s", some "c", none⟩ true none
    [⟨"Coding"⟩, ⟨"Identifier"⟩] [⟨"Identifier"⟩, ⟨"Coding"⟩, ⟨"Identifier"⟩]
    (by
      intro t
      cases h1 : (("Coding" : String) == t) <;> cases h2 : (("Identifier" : String) == t) <;>
        simp [h1, h2])

/-- The system selector never returns an empty field list. -/
theorem systemFields_ne_nil (path keywordSuffix : String) (dataTypeExists : Bool)
    (flags : TypeFlags) : systemFields path keywordSuffix dataTypeExists flags ≠ [] := by
  unfold systemFields
  split
  · split
    · simp
    · next hlen => exact fun h0 => hlen (by rw [h0]; rfl)
  · simp

/-- The code selector never returns an empty field list. -/
theorem codeFields_ne_nil (path keywordSuffix : String) (useKeywordSuffix dataTypeExists : Bool)
    (flags : TypeFlags) :
    codeFields path keywordSuffix useKeywordSuffix dataTypeExists flags ≠ [] := by
  unfold codeFields
  split
  · split
    · simp
    · next hlen => exact fun h0 => hlen (by rw [h0]; rfl)
  · simp

/-- C10: every `multi_match` clause anywhere in a successful result has a
non-empty fields list. -/
theorem multiMatch_fields_nonempty (m : TokenDataTypesMap) (compiled : CompiledSearchParam)
    (value : TokenSearchValue) (ukf : Bool) (modifier : Option String) (q : Query)
    (h : tokenQuery m compiled value ukf modifier = Except.ok q) :
    ∀ fl ∈ q.multiMatchFieldLists, fl ≠ [] := by
  intro fl hfl
  obtain ⟨c, hcmem, hflc⟩ := mem_multiMatchFieldLists_of_ok h hfl
  rcases mem_tokenQueryClauses hcmem with ⟨s, _, rfl⟩ | ⟨co, _, rfl⟩ | rfl
  · simp only [Query.multiMatchFieldLists, List.mem_singleton] at hflc
    rw [hflc]
    exact systemFields_ne_nil _ _ _ _
  · simp only [Query.multiMatchFieldLists, List.mem_singleton] at hflc
    rw [hflc]
    exact codeFields_ne_nil _ _ _ _ _
  · simp [Query.multiMatchFieldLists] at hflc

theorem multiMatch_fields_nonempty_witness :
    (["x.system", "x.coding.system"] : List String) ≠ [] :=
  multiMatch_fields_nonempty emptyMap ⟨"Patient", "x"⟩ ⟨some "s", none, none⟩ false none
    (Query.multiMatch ["x.system", "x.coding.system"] "s" true) rfl
    ["x.system", "x.coding.system"] (by simp [Query.multiMatchFieldLists])

end Claims

end FhirTokenQuery
